import Mathlib

/-! Verification of the per-row normalization and templating pipeline of
src/app.py (DGE Executive Summary Generator, V3): a shallow embedding of the
row normalizer (gender-to-pronoun mapping and competency score lines), the
master-prompt renderer, and the batch loop that calls the external
text-generation service once per row, together with proofs of the stated
properties. -/

namespace DGEES

/-- A spreadsheet cell as pandas hands it to the loop: a numeric value
(integer or decimal scores are exact rationals here), a text value, or NaN
(an empty or missing cell reads as NaN from Excel). -/
inductive Val where
  | num : ℚ → Val
  | str : String → Val
  | null : Val
  deriving DecidableEq

/-- Python int() truncation toward zero on a numeric score, as int() does on
a float: int(2.5) = 2 and int(-2.5) = -2. -/
def truncRat (q : ℚ) : ℤ :=
  if 0 ≤ q.num then ((q.num.toNat / q.den : ℕ) : ℤ)
  else -(((-q.num).toNat / q.den : ℕ) : ℤ)

/-- Python str() of a cell value as app.py line 218 uses it: a text cell is
itself, NaN prints as "nan", and a numeric cell prints as a numeral (whose
exact shape never matters to the app: it is only compared against "M" and
"F", which no numeral equals). -/
def pyStr : Val → String
  | .num q => if q.den = 1 then toString q.num else toString q.num ++ "/" ++ toString q.den
  | .str s => s
  | .null => "nan"

/-- Python str.upper() for the gender code, written as the character-by-
character uppercase map so that it evaluates inside the kernel. -/
def pyUpper (s : String) : String := String.mk (s.data.map Char.toUpper)

/-- pandas pd.notna: every cell value except NaN counts as present. -/
def notna : Val → Bool
  | .null => false
  | _ => true

/-- Python int() on a cell value: truncation toward zero for a numeric cell,
conversion for an integer-literal text cell, and none for anything that
raises (a non-numeric text cell, or NaN - though every int() in the app is
guarded by pd.notna). -/
def pyInt : Val → Option ℤ
  | .num q => some (truncRat q)
  | .str s => s.toInt?
  | .null => none

/-- One spreadsheet row: the value of each named cell. Only the columns
listed by the enclosing table are meaningful; pandas raises KeyError for any
other lookup, which the embedding models by checking the table's column list
before reading. -/
structure Row where
  get : String → Val

/-- An uploaded table: its column names, in the spreadsheet's order, and its
rows. -/
structure Table where
  cols : List String
  rows : List Row

/-- app.py lines 200-204: the fixed list of the 8 recognized competency
columns. -/
def all_known_competencies : List String :=
  ["Strategic Thinker", "Impactful Decision Maker", "Effective Collaborator",
   "Talent Nurturer", "Results Driver", "Customer Advocate",
   "Transformation Enabler", "Innovation Catalyst"]

/-- app.py line 205: the recognized competency columns actually present,
kept in the uploaded table's column order. -/
def competency_columns (cols : List String) : List String :=
  cols.filter (fun c => all_known_competencies.contains c)

/-- app.py lines 217-225: map the gender cell to a pronoun. str(gender)
is uppercased and compared with "M" and "F"; anything else falls back to the
default "They" and emits one st.warning. Returns the pronoun together with
the number of warnings emitted for this row. -/
def pronounWarn (g : Val) : String × Nat :=
  let gender_input := pyUpper (pyStr g)
  if gender_input = "M" then ("He", 0)
  else if gender_input = "F" then ("She", 0)
  else ("They", 1)

/-- The string built for one competency at app.py line 232:
f"- \x7bcompetency\x7d: \x7bint(row[competency])\x7d". -/
def scoreLine (c : String) (n : ℤ) : String :=
  "- " ++ c ++ ": " ++ toString n

/-- app.py lines 229-232, the inner loop over a given column list: walk the
recognized columns in order, skip NaN cells, and append the score line for
the rest; none models the exception int() raises on a malformed cell, which
ends the whole batch through the handler at line 265. The check
`competency in row` at line 231 is always true because competency_columns
only lists columns the table has. -/
def scoresAux (row : Row) : List String → Option (List String)
  | [] => some []
  | c :: cs =>
    if notna (row.get c) then
      match pyInt (row.get c) with
      | none => none
      | some n => (scoresAux row cs).map (fun rest => scoreLine c n :: rest)
    else scoresAux row cs

/-- app.py lines 229-233: the scores_data list built for one row. -/
def scores_data (cols : List String) (row : Row) : Option (List String) :=
  scoresAux row (competency_columns cols)

/-- app.py line 233: person_data_str, the score lines joined by newlines. -/
def person_data_str (cols : List String) (row : Row) : Option String :=
  (scores_data cols row).map (String.intercalate "\n")

/-- app.py lines 20-107: the master prompt template, a fixed f-string with
person_name, pronoun and person_data substituted into fixed positions. -/
def create_master_prompt (person_name pronoun person_data : String) : String :=
  "\nYou are a senior talent assessment consultant and expert report writer, specializing in executive summaries for leadership assessments. Your writing style is indistinguishable from a human expert, characterized by concise, clear, and professional British English.\n\n## Core Objective\nSynthesize the provided competency data for "
  ++ person_name
  ++ " into a single, fluid narrative paragraph.\n\n## Input Data for "
  ++ person_name
  ++ "\n<InputData>\n"
  ++ person_data
  ++ "\n</InputData>\n\n## ---------------------------------------------\n## ABSOLUTE DIRECTIVES & RULES OF WRITING\n## ---------------------------------------------\n\n1.  **Structure: Single Paragraph ONLY.**\n    * The entire summary MUST be a single, unbroken paragraph. Do not use multiple paragraphs or line breaks.\n\n2.  **CRITICAL RULE - Writing Style: Describe Behavior, Don't Label Competency.**\n    * You must translate the competency name into a behavioral description.\n    * **Incorrect (Labeling):** \""
  ++ person_name
  ++ " demonstrated Strategic Thinker.\"\n    * **Correct (Describing):** \""
  ++ person_name
  ++ " evidenced a strong ability to think strategically.\" or \""
  ++ pronoun
  ++ " demonstrated the capacity to drive for results.\"\n\n3.  **CRITICAL RULE - Narrative Voice: Be Concise and Human-like.**\n    * AVOID long, complex sentences connected by 'while', 'and', or 'however'.\n    * Prefer two shorter, direct sentences over one long, rambling one. This is essential.\n    * DO NOT add generic, \"fluff\" phrases to the end of sentences. Be direct and impactful.\n    * **Incorrect (AI-like, long):** \"His ability to nurture talent was reflected in his supportive interactions, where he encouraged growth and development among team members, fostering a positive and inclusive environment.\"\n    * **Correct (Human-like, concise):** \"His ability to nurture talent was reflected in his supportive interactions and encouragement of team member growth.\"\n\n4.  **Opening Sentence Protocol:**\n    * The opening sentence MUST be positive and framed around the candidate's highest-scoring competency.\n    * Use one of these specific formats: \""
  ++ person_name
  ++ " evidenced a strong ability to [describe highest competency].\" OR \""
  ++ person_name
  ++ " demonstrated the capacity to [describe highest competency].\"\n    * NEVER open with a balanced statement about strengths and development areas.\n\n5.  **Closing Sentence Protocol:**\n    * DO NOT use a closing or summary sentence. The narrative should end naturally after describing the last behavior or development area.\n    * **AVOID sentences like:** \"Overall, [Name]'s profile is strong...\" or \"By addressing these areas, [Name] can improve...\"\n\n6.  **Pronoun Usage:**\n    * Use the candidate's first name, \""
  ++ person_name
  ++ "\", only once at the very beginning of the summary.\n    * Thereafter, use ONLY the provided pronoun: **"
  ++ pronoun
  ++ "**.\n\n## ---------------------------------------------\n## FORBIDDEN CONTENT - YOU MUST NOT INCLUDE THESE\n## ---------------------------------------------\n\n1.  **NO MENTION OF THE ASSESSMENT:**\n    * Do not use phrases like: \"several leadership competencies assessed\", \"as observed during the assessment\", \"In his interactions\", \"during the activity\". The summary should read as a general character assessment.\n\n2.  **NO MENTION OF SCORES OR LEVELS (Directly or Indirectly):**\n    * ABSOLUTELY NO numerical scores.\n    * Do not use \"proxy\" words that imply a score, such as: \"showed promise in\", \"demonstrated a foundational ability to\", \"is developing in\". Describe the behavior neutrally or as a development area.\n\n3.  **NO \"COGNITIVE\" ABILITIES:**\n    * Do not mention \"cognitive abilities\", \"cognitive agility\", \"cognitive tools\", or similar phrases. Focus only on the behavioral competencies provided.\n\n4.  **AVOID OVERUSED WORDS:**\n    * Do not use the words \"foster\" or \"underscored\". Find more varied and professional synonyms.\n\n## ---------------------------------------------\n## REVISED EXAMPLES (INTERNALIZE THIS NEW LOGIC)\n## ---------------------------------------------\n\n**Example 1: High-Scorer Profile**\n* **Logic:** Single, positive narrative. Opens with the highest strength. No closing summary. Sentences are concise.\n* **Correct Output:** \"Amal demonstrated the capacity to think strategically, consistently anticipating future challenges and aligning actions with long-term organisational goals. She showcased a strong ability to drive for results, setting ambitious goals and maintaining a disciplined focus on achieving them. Her decision-making reflected a balanced consideration of risks and opportunities. Furthermore, she effectively collaborated with peers to achieve shared objectives.\"\n\n**Example 2: Mixed-Score Profile**\n* **Logic:** Integrated narrative. Opens with a clear strength. Transitions smoothly to actionable development needs. Uses concise language. No closing summary.\n* **Correct Output:** \"Rashed evidenced a strong ability to drive for results by focusing the team on clear objectives. He effectively collaborated with his peers and demonstrated a capacity for making impactful decisions. To further enhance his leadership, Rashed may benefit from developing a more customer-centric approach by actively seeking client feedback to better inform service delivery. He could also strengthen his ability to think strategically by analysing industry trends to identify growth opportunities, rather than focusing solely on operational tactics.\"\n\n## Final Instruction for "
  ++ person_name
  ++ "\nNow, process the provided competency data for "
  ++ person_name
  ++ ". Adhering to every rule above, write a single, concise, human-like paragraph of no more than 280 words. Begin with the specified opening sentence format and do not include a closing summary sentence.\n"

/-- app.py line 243: the literal failure marker appended when a row's
generation fails. -/
def failureMarker : String := "Error: Failed to generate summary."

/-- app.py lines 237-244: the entry appended to generated_summaries for one
row, given the external-service result for that row (some s when
generate_summary_azure returns the stripped content s, none when it catches
an exception and returns None, lines 133-135). `if summary:` is Python
truthiness: None and the empty string both take the failure branch. -/
def summaryEntry (res : Option String) : String :=
  match res with
  | some s => if s = "" then failureMarker else s
  | none => failureMarker

/-- Whether the loop body for this row raises before reaching the external
call: row['first_name'] at line 216 raises KeyError when that column is
absent, and int() on a malformed score cell raises inside the scores loop at
line 232. (The gender lookup at line 218 cannot raise: the batch already
checked the gender column exists.) -/
def rowRaises (cols : List String) (row : Row) : Bool :=
  !(cols.contains "first_name") || (scores_data cols row).isNone

/-- app.py lines 215-246, one iteration of the row loop: none when the
iteration raises (the exception propagates to the handler at line 265 and
ends the batch), otherwise the summary entry appended for this row. The
external call is made exactly when the iteration does not raise. -/
def processRow (cols : List String) (row : Row) (res : Option String) : Option String :=
  if rowRaises cols row then none else some (summaryEntry res)

/-- The row loop from row index i: the accumulated generated_summaries list,
or none when some iteration raised. The oracle gives the external service's
result for each row index. -/
def runRows (cols : List String) (oracle : Nat → Option String) : List Row → Nat → Option (List String)
  | [], _ => some []
  | r :: rs, i =>
    match processRow cols r (oracle i) with
    | none => none
    | some entry => (runRows cols oracle rs (i + 1)).map (fun rest => entry :: rest)

/-- How many external text-generation calls the loop makes: one per row up
to (and not including) the first row whose iteration raises. -/
def callsMade (cols : List String) : List Row → Nat
  | [] => 0
  | r :: rs => if rowRaises cols r then 0 else callsMade cols rs + 1

/-- app.py lines 252-253: output_df = df.copy() and then
output_df['Executive Summary'] = generated_summaries. pandas column
assignment overwrites an existing column of that name in place and appends a
new last column otherwise. -/
def appendSummaries (t : Table) (summaries : List String) : Table :=
  { cols := if t.cols.contains "Executive Summary" then t.cols
            else t.cols ++ ["Executive Summary"],
    rows := List.zipWith
      (fun r s => { get := fun c => if c = "Executive Summary" then Val.str s else r.get c })
      t.rows summaries }

/-- The observable outcome of one press of Generate Summaries: stopped by
st.stop() or by an exception, finished with an empty summaries list (the
results block at lines 248-263 is skipped, so no output table appears), or
finished with an output table. Each outcome records how many external calls
were made. -/
inductive BatchResult where
  | stopped : Nat → BatchResult
  | noOutput : Nat → BatchResult
  | output : Table → Nat → BatchResult

/-- True exactly for a batch that was stopped by st.stop() or an exception. -/
def BatchResult.isStopped : BatchResult → Bool
  | .stopped _ => true
  | _ => false

/-- The number of external calls a batch outcome records. -/
def BatchResult.calls : BatchResult → Nat
  | .stopped n => n
  | .noOutput n => n
  | .output _ n => n

/-- app.py lines 198-253: the batch, after credentials load. The gender
column check at lines 208-210 stops before the loop; then the loop runs (an
iteration's exception ends the batch through the handler at line 265); the
results block runs only when generated_summaries is nonempty. -/
def processBatch (t : Table) (oracle : Nat → Option String) : BatchResult :=
  if t.cols.contains "gender" then
    match runRows t.cols oracle t.rows 0 with
    | none => .stopped (callsMade t.cols t.rows)
    | some summaries =>
      if summaries = [] then .noOutput (callsMade t.cols t.rows)
      else .output (appendSummaries t summaries) (callsMade t.cols t.rows)
  else .stopped 0

/-- The cell of row i, column c of a table, as an Option (none past the last
row). -/
def cellOf (t : Table) (i : Nat) (c : String) : Option Val :=
  (t.rows[i]?).map (fun r => r.get c)

/-! Helper lemmas about the scores loop. -/

/-- On a successful run the inner scores loop lists, in order, one line for
every non-NaN cell of the given columns. -/
theorem scoresAux_some (row : Row) :
    ∀ (cs : List String) (l : List String), scoresAux row cs = some l →
      l = (cs.filter (fun c => notna (row.get c))).map
        (fun c => scoreLine c ((pyInt (row.get c)).getD 0)) := by
  intro cs
  induction cs with
  | nil =>
    intro l h
    simp only [scoresAux, Option.some.injEq] at h
    simp [h.symm]
  | cons c cs ih =>
    intro l h
    simp only [scoresAux] at h
    by_cases hn : notna (row.get c)
    · rw [if_pos hn] at h
      cases hp : pyInt (row.get c) with
      | none => rw [hp] at h; cases h
      | some n =>
        rw [hp] at h
        cases hr : scoresAux row cs with
        | none => rw [hr] at h; cases h
        | some rest =>
          rw [hr] at h
          simp only [Option.map_some', Option.some.injEq] at h
          subst h
          simp [List.filter_cons, hn, hp, ih rest hr]
    · rw [if_neg hn] at h
      simpa [List.filter_cons, hn] using ih l h

/-- When every non-NaN cell converts, the inner scores loop succeeds and is
the filterMap of the line builder over the given columns. -/
theorem scoresAux_filterMap (row : Row) :
    ∀ cs : List String,
      (∀ c ∈ cs, notna (row.get c) = true → (pyInt (row.get c)).isSome = true) →
      scoresAux row cs = some (cs.filterMap (fun c =>
        if notna (row.get c) then (pyInt (row.get c)).map (scoreLine c) else none)) := by
  intro cs
  induction cs with
  | nil => intro _; rfl
  | cons c cs ih =>
    intro h
    have hcs : ∀ x ∈ cs, notna (row.get x) = true → (pyInt (row.get x)).isSome = true :=
      fun x hx => h x (List.mem_cons_of_mem c hx)
    by_cases hn : notna (row.get c)
    · obtain ⟨n, hp⟩ := Option.isSome_iff_exists.mp (h c (List.mem_cons_self c cs) hn)
      simp [scoresAux, hn, hp, List.filterMap_cons, ih hcs]
    · simp [scoresAux, hn, List.filterMap_cons, ih hcs]

/-- Filtering before a filterMap is the filterMap guarded by the filter's
predicate. -/
theorem filterMap_filter_fuse {α β : Type} (p : α → Bool) (f : α → Option β) :
    ∀ l : List α, (l.filter p).filterMap f = l.filterMap (fun a => if p a then f a else none) := by
  intro l
  induction l with
  | nil => rfl
  | cons a l ih =>
    by_cases hp : p a
    · cases hf : f a with
      | none => simp [List.filter_cons, List.filterMap_cons, hp, hf, ih]
      | some b => simp [List.filter_cons, List.filterMap_cons, hp, hf, ih]
    · simp [List.filter_cons, List.filterMap_cons, hp, ih]

/-- The characterization of a successful scores_data run used by the claims
about line order and line shape: the produced list is the map of the line
builder over the recognized non-null columns, kept in the input column
order. -/
theorem scores_data_some_eq (cols : List String) (row : Row) (l : List String)
    (h : scores_data cols row = some l) :
    l = (cols.filter (fun c => all_known_competencies.contains c && notna (row.get c))).map
      (fun c => scoreLine c ((pyInt (row.get c)).getD 0)) := by
  have h2 := scoresAux_some row (competency_columns cols) l h
  rw [h2, competency_columns, List.filter_filter]
  have hfun : (fun a => notna (row.get a) && all_known_competencies.contains a)
      = (fun c => all_known_competencies.contains c && notna (row.get c)) := by
    funext a
    exact Bool.and_comm _ _
  rw [hfun]

/-- Modelled from the claim's words, amended: the lines of exactly the
recognized competency columns of the table whose cell is non-null, in the
INPUT table's column order, each line in the code's "- label: value"
shape. -/
def linesInputOrder (cols : List String) (row : Row) : List String :=
  cols.filterMap (fun c =>
    if all_known_competencies.contains c && notna (row.get c) then
      (pyInt (row.get c)).map (scoreLine c)
    else none)

/-- C1 (amended): for every input row whose non-null recognized competency
cells convert to integers, the competency lines produced are exactly those
of the non-null recognized-competency columns of the table (the intersection
with the fixed 8-element list), listed in the INPUT table's column order -
not the fixed list's - and each line carries the code's "- label: value"
shape. -/
theorem scores_data_eq_linesInputOrder (cols : List String) (row : Row)
    (hconv : ∀ c ∈ cols, all_known_competencies.contains c = true →
      notna (row.get c) = true → (pyInt (row.get c)).isSome = true) :
    scores_data cols row = some (linesInputOrder cols row) := by
  rw [scores_data, competency_columns,
    scoresAux_filterMap row _
      (fun c hc => hconv c (List.mem_filter.mp hc).1 (List.mem_filter.mp hc).2),
    filterMap_filter_fuse, linesInputOrder]
  have hfun : (fun c => if all_known_competencies.contains c then
        (if notna (row.get c) then (pyInt (row.get c)).map (scoreLine c) else none)
        else none)
      = (fun c => if all_known_competencies.contains c && notna (row.get c) then
        (pyInt (row.get c)).map (scoreLine c) else none) := by
    funext c
    by_cases h1 : all_known_competencies.contains c <;>
      by_cases h2 : notna (row.get c) <;> simp [h1, h2]
  rw [hfun]

/-! Helper lemmas about the batch loop. -/

/-- A successful loop run has one summary entry per row. -/
theorem runRows_some_length (cols : List String) (oracle : Nat → Option String) :
    ∀ (rows : List Row) (i : Nat) (l : List String),
      runRows cols oracle rows i = some l → l.length = rows.length := by
  intro rows
  induction rows with
  | nil =>
    intro i l h
    simp only [runRows, Option.some.injEq] at h
    simp [h.symm]
  | cons r rs ih =>
    intro i l h
    simp only [runRows] at h
    cases hpr : processRow cols r (oracle i) with
    | none => rw [hpr] at h; cases h
    | some entry =>
      rw [hpr] at h
      cases hrun : runRows cols oracle rs (i + 1) with
      | none => rw [hrun] at h; cases h
      | some rest =>
        rw [hrun] at h
        simp only [Option.map_some', Option.some.injEq] at h
        subst h
        simp [ih (i + 1) rest hrun]

/-- Each entry of a successful loop run is determined by that row's own
external-service result alone. -/
theorem runRows_some_getElem (cols : List String) (oracle : Nat → Option String) :
    ∀ (rows : List Row) (i : Nat) (l : List String),
      runRows cols oracle rows i = some l →
      ∀ j : Nat, l[j]? = (rows[j]?).map (fun _ => summaryEntry (oracle (i + j))) := by
  intro rows
  induction rows with
  | nil =>
    intro i l h j
    simp only [runRows, Option.some.injEq] at h
    simp [h.symm]
  | cons r rs ih =>
    intro i l h j
    simp only [runRows] at h
    cases hpr : processRow cols r (oracle i) with
    | none => rw [hpr] at h; cases h
    | some entry =>
      rw [hpr] at h
      cases hrun : runRows cols oracle rs (i + 1) with
      | none => rw [hrun] at h; cases h
      | some rest =>
        rw [hrun] at h
        simp only [Option.map_some', Option.some.injEq] at h
        subst h
        have hentry : entry = summaryEntry (oracle i) := by
          by_cases hr : rowRaises cols r
          · rw [processRow, if_pos hr] at hpr; cases hpr
          · rw [processRow, if_neg hr] at hpr
            exact (Option.some.injEq _ _ ▸ hpr).symm
        cases j with
        | zero => simp [hentry]
        | succ j =>
          have hnum : i + 1 + j = i + (j + 1) := by omega
          simp [ih (i + 1) rest hrun j, hnum]

/-- When no row raises, the loop completes. -/
theorem runRows_total (cols : List String) (oracle : Nat → Option String) :
    ∀ (rows : List Row) (i : Nat), (∀ r ∈ rows, rowRaises cols r = false) →
      ∃ l, runRows cols oracle rows i = some l := by
  intro rows
  induction rows with
  | nil => intro i _; exact ⟨[], rfl⟩
  | cons r rs ih =>
    intro i h
    have hr : rowRaises cols r = false := h r (List.mem_cons_self r rs)
    obtain ⟨l, hl⟩ := ih (i + 1) (fun x hx => h x (List.mem_cons_of_mem r hx))
    exact ⟨summaryEntry (oracle i) :: l, by simp [runRows, processRow, hr, hl]⟩

/-- When no row raises, the loop makes exactly one external call per row. -/
theorem callsMade_eq_length (cols : List String) :
    ∀ rows : List Row, (∀ r ∈ rows, rowRaises cols r = false) →
      callsMade cols rows = rows.length := by
  intro rows
  induction rows with
  | nil => intro _; rfl
  | cons r rs ih =>
    intro h
    simp [callsMade, h r (List.mem_cons_self r rs),
      ih (fun x hx => h x (List.mem_cons_of_mem r hx))]

/-- Without a first_name column the very first iteration raises, so no
external call is ever made. -/
theorem callsMade_eq_zero_of_no_first_name (cols : List String)
    (h : cols.contains "first_name" = false) (rows : List Row) :
    callsMade cols rows = 0 := by
  cases rows with
  | nil => rfl
  | cons r rs =>
    have hr : rowRaises cols r = true := by rw [rowRaises, h]; rfl
    simp [callsMade, hr]

/-- Indexing a zipWith: the image of the two entries at that index. -/
theorem getElem_zipWith_eq {α β γ : Type} (f : α → β → γ) :
    ∀ (l : List α) (m : List β) (i : Nat),
      (List.zipWith f l m)[i]? = (l[i]?).bind (fun a => (m[i]?).map (fun b => f a b)) := by
  intro l
  induction l with
  | nil => intro m i; simp
  | cons a l ih =>
    intro m i
    cases m with
    | nil => simp
    | cons b m =>
      cases i with
      | zero => simp
      | succ i => simpa using ih m i

/-! Concrete inputs used by the claims about the scores lines. -/

/-- The column list of the claim's example row. -/
def exCols : List String := ["Strategic Thinker", "Results Driver", "Unknown Col"]

/-- The claim's example row: Strategic Thinker 4, Results Driver empty (an
empty spreadsheet cell reads as NaN), and the unrecognized column Unknown
Col 9. -/
def exRow : Row :=
  ⟨fun c => if c = "Strategic Thinker" then .num 4
    else if c = "Unknown Col" then .num 9 else .null⟩

/-- A table whose two recognized competency columns stand in the reverse of
the fixed list's order. -/
def swapCols : List String := ["Results Driver", "Strategic Thinker"]

/-- A row for swapCols with both competency cells filled. -/
def swapRow : Row :=
  ⟨fun c => if c = "Results Driver" then .num 3
    else if c = "Strategic Thinker" then .num 4 else .null⟩

/-- Modelled from the claim's words (C1 as stated): the intersection of the
row's non-null recognized-competency columns with the fixed competency list,
listed in the FIXED list's order, each line printed as the claim's example
prints it ("label: value"). -/
def claimLinesFixedOrder (cols : List String) (row : Row) : List String :=
  all_known_competencies.filterMap (fun c =>
    if cols.contains c && notna (row.get c) then
      (pyInt (row.get c)).map (fun n => c ++ ": " ++ toString n)
    else none)

/-- Modelled from the claim's words with the code's line shape granted: the
same intersection in the fixed list's order, each line "- label: value". -/
def claimLinesFixedOrderDashed (cols : List String) (row : Row) : List String :=
  all_known_competencies.filterMap (fun c =>
    if cols.contains c && notna (row.get c) then
      (pyInt (row.get c)).map (scoreLine c)
    else none)

/-- C1 counterexample: on the claim's own example row the code produces
"- Strategic Thinker: 4", not the claimed "Strategic Thinker: 4"; and on a
table whose columns stand in the order Results Driver, Strategic Thinker the
code produces the lines in that input order, not in the fixed list's order,
even granting the "- " line shape. -/
theorem scores_lines_differ_from_claimed_fixed_order :
    scores_data exCols exRow = some ["- Strategic Thinker: 4"] ∧
    claimLinesFixedOrder exCols exRow = ["Strategic Thinker: 4"] ∧
    scores_data exCols exRow ≠ some (claimLinesFixedOrder exCols exRow) ∧
    scores_data swapCols swapRow = some ["- Results Driver: 3", "- Strategic Thinker: 4"] ∧
    claimLinesFixedOrderDashed swapCols swapRow
      = ["- Strategic Thinker: 4", "- Results Driver: 3"] ∧
    scores_data swapCols swapRow ≠ some (claimLinesFixedOrderDashed swapCols swapRow) :=
  ⟨by decide, by decide, by decide, by decide, by decide, by decide⟩

/-- A realistic column list: textual identity columns alongside the claim's
example competency columns. -/
def realCols : List String :=
  ["email", "first_name", "gender", "Strategic Thinker", "Results Driver", "Unknown Col"]

/-- A realistic row for realCols: textual email, first_name and gender cells
(none of which converts to an integer), Strategic Thinker 4, Results Driver
empty (NaN), and the unrecognized column Unknown Col 9. -/
def realRow : Row :=
  ⟨fun c => if c = "email" then .str "jane.doe@example.com"
    else if c = "first_name" then .str "Jane"
    else if c = "gender" then .str "F"
    else if c = "Strategic Thinker" then .num 4
    else if c = "Unknown Col" then .num 9 else .null⟩

/-- C1 witness: the amended claim at the claim's example row, carried by a
realistic table whose textual identity cells are not integer-convertible -
only the recognized competency cells matter - yielding exactly one line, in
the code's shape. -/
theorem scores_lines_example_row_one_line :
    scores_data realCols realRow = some ["- Strategic Thinker: 4"] :=
  (scores_data_eq_linesInputOrder realCols realRow (by decide)).trans (by decide)

/-- C7: for every input row, a successful scores_data run lists one
"label: value" line for every recognized competency column that is present
and non-null, in an order preserving the input table's column order (the
list is the image of the table's column list filtered in place). -/
theorem scores_lines_preserve_input_column_order
    (cols : List String) (row : Row) (l : List String)
    (h : scores_data cols row = some l) :
    l = (cols.filter (fun c => all_known_competencies.contains c && notna (row.get c))).map
      (fun c => scoreLine c ((pyInt (row.get c)).getD 0)) :=
  scores_data_some_eq cols row l h

/-- C7 witness: the order-preservation statement evaluated at the two-column
table whose columns reverse the fixed list's order. -/
theorem scores_lines_preserve_order_witness :
    (["- Results Driver: 3", "- Strategic Thinker: 4"] : List String)
      = (swapCols.filter
          (fun c => all_known_competencies.contains c && notna (swapRow.get c))).map
        (fun c => scoreLine c ((pyInt (swapRow.get c)).getD 0)) :=
  scores_lines_preserve_input_column_order swapCols swapRow
    ["- Results Driver: 3", "- Strategic Thinker: 4"] (by decide)

/-- C9: every recognized competency column present in the table whose cell
is numeric contributes the line "- label: n", with n the score truncated
toward zero by Python int(); the line always carries the leading "- ". -/
theorem score_line_is_dashed_truncated_int
    (cols : List String) (row : Row) (l : List String) (c : String) (q : ℚ)
    (h : scores_data cols row = some l)
    (hc : c ∈ cols) (hk : all_known_competencies.contains c = true)
    (hq : row.get c = Val.num q) :
    scoreLine c (truncRat q) ∈ l ∧
    scoreLine c (truncRat q) = "- " ++ c ++ ": " ++ toString (truncRat q) := by
  refine ⟨?_, rfl⟩
  rw [scores_data_some_eq cols row l h]
  have hmem : c ∈ cols.filter
      (fun c => all_known_competencies.contains c && notna (row.get c)) :=
    List.mem_filter.mpr ⟨hc, by rw [hq, hk]; rfl⟩
  have hin := List.mem_map_of_mem (fun c => scoreLine c ((pyInt (row.get c)).getD 0)) hmem
  simpa [hq, pyInt] using hin

/-- A decimal score of two and a half, as the exact rational 5/2. -/
def scoreTwoAndHalf : ℚ := ⟨5, 2, by decide, by decide⟩

/-- The column list of the truncation example. -/
def truncCols : List String := ["gender", "Strategic Thinker"]

/-- A row whose Strategic Thinker cell holds the decimal score 2.5. -/
def truncRow : Row :=
  ⟨fun c => if c = "Strategic Thinker" then .num scoreTwoAndHalf else .null⟩

/-- C9 witness: the decimal score 2.5 is rendered as the line
"- Strategic Thinker: 2". -/
theorem score_line_truncation_witness :
    scoreLine "Strategic Thinker" (truncRat scoreTwoAndHalf) ∈
      (["- Strategic Thinker: 2"] : List String) ∧
    scoreLine "Strategic Thinker" (truncRat scoreTwoAndHalf)
      = "- " ++ "Strategic Thinker" ++ ": " ++ toString (truncRat scoreTwoAndHalf) :=
  score_line_is_dashed_truncated_int truncCols truncRow ["- Strategic Thinker: 2"]
    "Strategic Thinker" scoreTwoAndHalf (by decide) (by decide) (by decide) rfl

/-- C2: for every row, the resolved pronoun is "He" when str(gender).upper()
matches "M", "She" when it matches "F" (so the match on the gender code is
exact and case-insensitive), and "They" for any other value, with exactly
one warning emitted in the non-M/F case and none otherwise; in particular a
missing gender (NaN, whose str() is "nan") and an empty gender both resolve
to "They" with one warning, while "m" and "f" resolve with none. -/
theorem pronoun_from_gender_code (g : Val) :
    (pyUpper (pyStr g) = "M" → pronounWarn g = ("He", 0)) ∧
    (pyUpper (pyStr g) = "F" → pronounWarn g = ("She", 0)) ∧
    (pyUpper (pyStr g) ≠ "M" → pyUpper (pyStr g) ≠ "F" → pronounWarn g = ("They", 1)) ∧
    pronounWarn Val.null = ("They", 1) ∧
    pronounWarn (Val.str "") = ("They", 1) ∧
    pronounWarn (Val.str "m") = ("He", 0) ∧
    pronounWarn (Val.str "M") = ("He", 0) ∧
    pronounWarn (Val.str "f") = ("She", 0) ∧
    pronounWarn (Val.str "F") = ("She", 0) := by
  refine ⟨?_, ?_, ?_, by decide, by decide, by decide, by decide, by decide, by decide⟩
  · intro h1
    simp [pronounWarn, h1]
  · intro h1
    have hm : pyUpper (pyStr g) ≠ "M" := by rw [h1]; decide
    simp [pronounWarn, hm, h1]
  · intro h1 h2
    simp [pronounWarn, h1, h2]

/-- C5: prompt rendering is deterministic - two calls of the template
renderer on identical (name, pronoun, competency-lines) inputs return
byte-identical strings; the renderer is embedded as a total function of its
three inputs alone, which is what freedom from side effects means here. -/
theorem create_master_prompt_deterministic
    (n1 p1 d1 n2 p2 d2 : String) (hn : n1 = n2) (hp : p1 = p2) (hd : d1 = d2) :
    create_master_prompt n1 p1 d1 = create_master_prompt n2 p2 d2 := by
  rw [hn, hp, hd]

/-- C5 witness: determinism at one concrete input. -/
theorem create_master_prompt_deterministic_witness :
    create_master_prompt "Jane" "She" "- Strategic Thinker: 4"
      = create_master_prompt "Jane" "She" "- Strategic Thinker: 4" :=
  create_master_prompt_deterministic "Jane" "She" "- Strategic Thinker: 4"
    "Jane" "She" "- Strategic Thinker: 4" rfl rfl rfl

/-- C8: an external call that returns the empty string is recorded exactly
like one that raised - the per-row check `if summary:` cannot tell the two
apart, so both append the literal failure marker. -/
theorem empty_summary_recorded_as_failure :
    (∀ cols row, processRow cols row (some "") = processRow cols row none) ∧
    summaryEntry (some "") = failureMarker ∧
    summaryEntry none = failureMarker := by
  refine ⟨?_, rfl, rfl⟩
  intro cols row
  by_cases h : rowRaises cols row <;> simp [processRow, h, summaryEntry]

/-- C10: a zero-row upload (with the required gender column present)
completes without a single external call and produces no output table and no
appended summary column at all - generated_summaries stays empty, so the
results block at lines 248-263 is skipped. -/
theorem empty_table_skips_results_block
    (t : Table) (oracle : Nat → Option String)
    (hempty : t.rows = []) (hg : t.cols.contains "gender" = true) :
    processBatch t oracle = .noOutput 0 := by
  have hgm : "gender" ∈ t.cols := by simpa using hg
  simp [processBatch, hgm, hempty, runRows, callsMade]

/-- A zero-row table that has both identity columns. -/
def emptyTable : Table := ⟨["gender", "first_name"], []⟩

/-- An external service that would answer every call (none is ever made for
an empty table). -/
def unusedOracle : Nat → Option String := fun _ => some "unused"

/-- C10 witness: the empty upload at a concrete table. -/
theorem empty_table_skips_results_block_witness :
    processBatch emptyTable unusedOracle = .noOutput 0 :=
  empty_table_skips_results_block emptyTable unusedOracle rfl (by decide)

/-- C4 (amended): a missing gender column stops the batch before the loop
with zero external calls; a missing first_name column (gender present) stops
the batch on its first iteration, before that row's external call, whenever
the table has at least one row; and in every case a table missing either
required identity column makes zero external calls. (A zero-row table
missing only first_name does not abort: it completes with no output, still
with zero calls.) -/
theorem missing_identity_column_makes_zero_calls
    (t : Table) (oracle : Nat → Option String) :
    (t.cols.contains "gender" = false → processBatch t oracle = .stopped 0) ∧
    (t.cols.contains "gender" = true → t.cols.contains "first_name" = false →
      t.rows ≠ [] → processBatch t oracle = .stopped 0) ∧
    ((t.cols.contains "gender" = false ∨ t.cols.contains "first_name" = false) →
      (processBatch t oracle).calls = 0) := by
  refine ⟨?_, ?_, ?_⟩
  · intro hg
    have hgm : "gender" ∉ t.cols := by simpa using hg
    simp [processBatch, hgm]
  · intro hg hf hrows
    have hgm : "gender" ∈ t.cols := by simpa using hg
    cases hrs : t.rows with
    | nil => exact absurd hrs hrows
    | cons r rs =>
      have hr : rowRaises t.cols r = true := by rw [rowRaises, hf]; rfl
      simp [processBatch, hgm, hrs, runRows, processRow, hr, callsMade]
  · intro h
    cases h with
    | inl hg =>
      have hgm : "gender" ∉ t.cols := by simpa using hg
      simp [processBatch, hgm, BatchResult.calls]
    | inr hf =>
      cases hgb : t.cols.contains "gender" with
      | false =>
        have hgm : "gender" ∉ t.cols := by simpa using hgb
        simp [processBatch, hgm, BatchResult.calls]
      | true =>
        have hgm : "gender" ∈ t.cols := by simpa using hgb
        cases hrs : t.rows with
        | nil => simp [processBatch, hgm, hrs, runRows, callsMade, BatchResult.calls]
        | cons r rs =>
          have hr : rowRaises t.cols r = true := by rw [rowRaises, hf]; rfl
          simp [processBatch, hgm, hrs, runRows, processRow, hr, callsMade,
            BatchResult.calls]

/-- A zero-row table that has a gender column but no first_name column. -/
def genderOnlyTable : Table := ⟨["gender"], []⟩

/-- An external service that fails every call (none is made here anyway). -/
def failingOracle : Nat → Option String := fun _ => none

/-- C4 counterexample: a zero-row table missing the first_name column does
NOT abort - the loop body that would raise never runs, the batch completes
with no output - although, as the claim's parenthesis says, zero external
calls are observed. -/
theorem empty_table_missing_name_is_not_stopped :
    genderOnlyTable.cols.contains "first_name" = false ∧
    (processBatch genderOnlyTable failingOracle).isStopped = false ∧
    (processBatch genderOnlyTable failingOracle).calls = 0 :=
  ⟨rfl, rfl, rfl⟩

/-- C3: if the external text-generation call fails for row N while every
other row's call returns a nonempty narrative (distinct from the marker
text), the batch continues and still produces the output table after one
call per row; every other row's summary entry equals its own call's
narrative - unaffected by the failure - and the failure marker appears
exactly at row N, both in the summaries list and in the appended column. -/
theorem row_failure_is_isolated
    (t : Table) (oracle : Nat → Option String) (N : Nat)
    (hg : t.cols.contains "gender" = true)
    (hrows : ∀ r ∈ t.rows, rowRaises t.cols r = false)
    (hN : N < t.rows.length)
    (hfail : oracle N = none)
    (hok : ∀ i, i < t.rows.length → i ≠ N →
      ∃ s, oracle i = some s ∧ s ≠ "" ∧ s ≠ failureMarker) :
    ∃ summaries : List String,
      processBatch t oracle = .output (appendSummaries t summaries) t.rows.length ∧
      summaries.length = t.rows.length ∧
      (∀ i, i < t.rows.length → i ≠ N → summaries[i]? = oracle i) ∧
      (∀ i, i < t.rows.length → (summaries[i]? = some failureMarker ↔ i = N)) ∧
      (∀ i, i < t.rows.length →
        cellOf (appendSummaries t summaries) i "Executive Summary"
          = (summaries[i]?).map Val.str) := by
  obtain ⟨summaries, hrun⟩ := runRows_total t.cols oracle t.rows 0 hrows
  have hlen := runRows_some_length t.cols oracle t.rows 0 summaries hrun
  have hgetlt : ∀ i, i < t.rows.length → summaries[i]? = some (summaryEntry (oracle i)) := by
    intro i hi
    rw [runRows_some_getElem t.cols oracle t.rows 0 summaries hrun i,
      List.getElem?_eq_getElem hi]
    simp
  have hne : summaries ≠ [] := by
    apply List.ne_nil_of_length_pos
    rw [hlen]
    omega
  have hgm : "gender" ∈ t.cols := by simpa using hg
  refine ⟨summaries, ?_, hlen, ?_, ?_, ?_⟩
  · simp [processBatch, hgm, hrun, hne, callsMade_eq_length t.cols t.rows hrows]
  · intro i hi hne2
    obtain ⟨s, hs, hsne, _⟩ := hok i hi hne2
    rw [hgetlt i hi, hs]
    simp [summaryEntry, hsne]
  · intro i hi
    constructor
    · intro hmark
      by_contra hne2
      obtain ⟨s, hs, hsne, hsnm⟩ := hok i hi hne2
      rw [hgetlt i hi, hs] at hmark
      simp [summaryEntry, hsne] at hmark
      exact hsnm hmark
    · intro hiN
      subst hiN
      rw [hgetlt i hi, hfail]
      rfl
  · intro i hi
    have hrows2 : (appendSummaries t summaries).rows
        = List.zipWith (fun r s => Row.mk (fun c =>
            if c = "Executive Summary" then Val.str s else r.get c)) t.rows summaries := rfl
    rw [cellOf, hrows2, getElem_zipWith_eq, List.getElem?_eq_getElem hi, hgetlt i hi]
    simp

/-- The two-row table of the C3 witness. -/
def failTable : Table :=
  ⟨["gender", "first_name", "Strategic Thinker"],
   [⟨fun c => if c = "gender" then .str "F" else if c = "first_name" then .str "Jane"
      else if c = "Strategic Thinker" then .num 4 else .null⟩,
    ⟨fun c => if c = "gender" then .str "M" else if c = "first_name" then .str "John"
      else if c = "Strategic Thinker" then .num 2 else .null⟩]⟩

/-- An external service that answers row 0 and fails row 1. -/
def failAtOneOracle : Nat → Option String :=
  fun i => if i = 0 then some "Jane leads with clarity." else none

/-- C3 witness: the failure-isolation statement at a concrete two-row table
whose second call fails. -/
theorem row_failure_is_isolated_witness :
    ∃ summaries : List String,
      processBatch failTable failAtOneOracle
        = .output (appendSummaries failTable summaries) failTable.rows.length ∧
      summaries.length = failTable.rows.length ∧
      (∀ i, i < failTable.rows.length → i ≠ 1 → summaries[i]? = failAtOneOracle i) ∧
      (∀ i, i < failTable.rows.length → (summaries[i]? = some failureMarker ↔ i = 1)) ∧
      (∀ i, i < failTable.rows.length →
        cellOf (appendSummaries failTable summaries) i "Executive Summary"
          = (summaries[i]?).map Val.str) :=
  row_failure_is_isolated failTable failAtOneOracle 1 (by decide) (by decide) (by decide)
    rfl
    (by
      intro i hi hne
      have hi2 : i < 2 := hi
      interval_cases i
      · exact ⟨"Jane leads with clarity.", rfl, by decide, by decide⟩
      · exact absurd rfl hne)

/-- C6 (amended): when the uploaded table has no column already named
Executive Summary, a batch that produces an output table produces the input
table unchanged - same columns, same number of rows, every original cell
value intact - plus exactly one appended text column, each of whose entries
is either that row's generated narrative (the nonempty string its own call
returned) or the literal failure marker. -/
theorem output_table_is_input_plus_summary_column
    (t : Table) (oracle : Nat → Option String) (o : Table) (n : Nat)
    (hes : t.cols.contains "Executive Summary" = false)
    (hout : processBatch t oracle = .output o n) :
    o.cols = t.cols ++ ["Executive Summary"] ∧
    o.rows.length = t.rows.length ∧
    (∀ i c, t.cols.contains c = true → cellOf o i c = cellOf t i c) ∧
    (∀ i, i < t.rows.length →
      (∃ s, oracle i = some s ∧ s ≠ "" ∧
        cellOf o i "Executive Summary" = some (Val.str s)) ∨
      cellOf o i "Executive Summary" = some (Val.str failureMarker)) := by
  simp only [processBatch] at hout
  split at hout
  case isFalse => cases hout
  case isTrue hgm =>
    split at hout
    case h_1 => cases hout
    case h_2 =>
      rename_i summaries hrun
      split at hout
      · cases hout
      · rename_i hnem
        injection hout with h1 h2
        subst h1
        have hlen := runRows_some_length t.cols oracle t.rows 0 summaries hrun
        have hrows2 : (appendSummaries t summaries).rows
            = List.zipWith (fun r s => Row.mk (fun c =>
                if c = "Executive Summary" then Val.str s else r.get c))
              t.rows summaries := rfl
        have hesm : "Executive Summary" ∉ t.cols := by simpa using hes
        have hcols2 : (appendSummaries t summaries).cols
            = t.cols ++ ["Executive Summary"] := by
          simp [appendSummaries, hesm]
        refine ⟨hcols2, ?_, ?_, ?_⟩
        · rw [hrows2]
          simp [hlen]
        · intro i c hc
          have hcne : c ≠ "Executive Summary" := by
            intro hceq
            rw [hceq, hes] at hc
            cases hc
          rw [cellOf, cellOf, hrows2, getElem_zipWith_eq]
          cases ht : t.rows[i]? with
          | none => simp
          | some r =>
            have hi : i < t.rows.length := (List.getElem?_eq_some_iff.mp ht).1
            have hsi : i < summaries.length := by rw [hlen]; exact hi
            rw [List.getElem?_eq_getElem hsi]
            simp [hcne]
        · intro i hi
          have hsget : summaries[i]? = some (summaryEntry (oracle i)) := by
            rw [runRows_some_getElem t.cols oracle t.rows 0 summaries hrun i,
              List.getElem?_eq_getElem hi]
            simp
          rw [cellOf, hrows2, getElem_zipWith_eq, List.getElem?_eq_getElem hi, hsget]
          cases hor : oracle i with
          | none =>
            right
            simp [summaryEntry, hor]
          | some s =>
            by_cases hse : s = ""
            · right
              simp [summaryEntry, hor, hse]
            · left
              exact ⟨s, rfl, hse, by simp [summaryEntry, hor, hse]⟩

/-- The one-row table of the C6 witness. -/
def plainTable : Table :=
  ⟨["gender", "first_name"],
   [⟨fun c => if c = "gender" then .str "M"
      else if c = "first_name" then .str "John" else .null⟩]⟩

/-- An external service that returns the same narrative on every call. -/
def okOracle : Nat → Option String := fun _ => some "John is focused."

/-- The output table the C6 witness observes. -/
def plainOutput : Table := appendSummaries plainTable ["John is focused."]

/-- C6 witness: the frame statement at a concrete one-row batch. -/
theorem output_table_witness :
    plainOutput.cols = plainTable.cols ++ ["Executive Summary"] ∧
    plainOutput.rows.length = plainTable.rows.length ∧
    (∀ i c, plainTable.cols.contains c = true →
      cellOf plainOutput i c = cellOf plainTable i c) ∧
    (∀ i, i < plainTable.rows.length →
      (∃ s, okOracle i = some s ∧ s ≠ "" ∧
        cellOf plainOutput i "Executive Summary" = some (Val.str s)) ∨
      cellOf plainOutput i "Executive Summary" = some (Val.str failureMarker)) :=
  output_table_is_input_plus_summary_column plainTable okOracle plainOutput 1
    (by decide) rfl

/-- A one-row table that already carries an Executive Summary column. -/
def overwriteTable : Table :=
  ⟨["gender", "first_name", "Executive Summary"],
   [⟨fun c => if c = "gender" then .str "F" else if c = "first_name" then .str "Ana"
      else if c = "Executive Summary" then .str "original" else .null⟩]⟩

/-- An external service returning a fresh narrative for the overwrite
counterexample. -/
def overwriteOracle : Nat → Option String := fun _ => some "New text."

/-- The output table of the overwrite counterexample. -/
def overwriteOutput : Table := appendSummaries overwriteTable ["New text."]

/-- C6 counterexample: when the uploaded table already has a column named
Executive Summary, the batch overwrites that column's original value instead
of leaving every original value unchanged, and appends no new column at all
(the output has the same column list as the input). -/
theorem preexisting_summary_column_is_overwritten :
    processBatch overwriteTable overwriteOracle = .output overwriteOutput 1 ∧
    overwriteOutput.cols = overwriteTable.cols ∧
    overwriteTable.cols ≠ overwriteTable.cols ++ ["Executive Summary"] ∧
    cellOf overwriteTable 0 "Executive Summary" = some (Val.str "original") ∧
    cellOf overwriteOutput 0 "Executive Summary" = some (Val.str "New text.") :=
  ⟨rfl, rfl, by decide, rfl, rfl⟩

end DGEES
